import Mathlib

/-!
Verification of the sentiment-analysis / speech-to-text backend of the
`texty` repository.  The Python sources under `backend/` are shallowly
embedded below: Python floats are modelled as `ℚ`, Python dicts with
string keys as ordered association lists (`List (String × ℚ)`) with
insert-or-update semantics matching CPython's insertion-ordered dicts,
and exception-raising code as `Except String`-valued functions.
-/

set_option maxHeartbeats 1000000

namespace Texty

/-! ## Python dict model -/

/-- Insert-or-update for an insertion-ordered dict with string keys:
`d[k] = v` replaces the value at `k` in place if present, otherwise
appends `(k, v)` at the end, exactly as a CPython dict does. -/
def dinsert (k : String) (v : ℚ) : List (String × ℚ) → List (String × ℚ)
  | [] => [(k, v)]
  | (k', v') :: rest => if k' = k then (k, v) :: rest else (k', v') :: dinsert k v rest

/-- Dict lookup (first match wins); 0 for a missing key. -/
def lookupD (d : List (String × ℚ)) (k : String) : ℚ :=
  match d with
  | [] => 0
  | (k', v) :: rest => if k' = k then v else lookupD rest k

/-! ## Whitespace handling (`not text or not text.strip()`) -/

/-- Characters stripped by Python's `str.strip()`, i.e. the characters on
which `str.isspace()` holds: the ASCII whitespace controls tab, LF, VT,
FF, CR, the file/group/record/unit separators U+1C-U+1F, space,
NEL U+85, NBSP U+A0, and the Unicode space characters (OGHAM space
mark, the en-quad..hair-space range, line and paragraph separators,
narrow NBSP, medium mathematical space, ideographic space). -/
def pyIsSpace (c : Char) : Bool :=
  c = ' ' || c = '\t' || c = '\n' || c = '\r' || c = '\x0b' || c = '\x0c' ||
  c = '\x1c' || c = '\x1d' || c = '\x1e' || c = '\x1f' ||
  c = '\x85' || c = '\xa0' || c = '\u1680' ||
  ('\u2000' ≤ c && c ≤ '\u200a') ||
  c = '\u2028' || c = '\u2029' || c = '\u202f' || c = '\u205f' || c = '\u3000'

/-- `str.strip()`: drop leading and trailing whitespace. -/
def pyStrip (s : String) : String :=
  String.mk (((s.toList.dropWhile pyIsSpace).reverse.dropWhile pyIsSpace).reverse)

/-! ## The three sentiment mappings (sentiment_analysis.py) -/

/-- The value computed inside one `_analyze_with_*` helper, before
`analyze_sentiment` attaches the timing field. -/
structure InnerResult where
  sentiment : String
  confidence : ℚ
  scores : List (String × ℚ)
  deriving DecidableEq, Repr

/-- Python's `str.lower()` on the ASCII label strings the models emit,
written over the character list so that it evaluates in the kernel. -/
def pyLower (s : String) : String := String.mk (s.toList.map Char.toLower)

/-- `label_map.get(result["label"], result["label"].lower())` from
`_analyze_with_transformers`. -/
def labelMapGet (label : String) : String :=
  if label = "LABEL_0" then "negative"
  else if label = "LABEL_1" then "neutral"
  else if label = "LABEL_2" then "positive"
  else if label = "NEGATIVE" then "negative"
  else if label = "NEUTRAL" then "neutral"
  else if label = "POSITIVE" then "positive"
  else pyLower label

/-- `_analyze_with_transformers`, lines 106-137, as a function of the raw
pipeline output `(label, score)`.  The dict updates follow the Python
statement order: `scores[sentiment] = confidence`, then one update per
entry of `other_sentiments`. -/
def analyzeWithTransformers (label : String) (score : ℚ) : InnerResult :=
  let sentiment := labelMapGet label
  let confidence := score
  let scores0 : List (String × ℚ) := [("positive", 0), ("negative", 0), ("neutral", 0)]
  let scores1 := dinsert sentiment confidence scores0
  let remaining := 1 - confidence
  let others := (scores1.map Prod.fst).filter (fun s => s != sentiment)
  let scores2 := others.foldl (fun d o => dinsert o (remaining / (others.length : ℚ)) d) scores1
  { sentiment := sentiment, confidence := confidence, scores := scores2 }

/-- The four-way tuple returned by VADER's `polarity_scores`. -/
structure VaderScores where
  pos : ℚ
  neg : ℚ
  neu : ℚ
  compound : ℚ
  deriving DecidableEq, Repr

/-- `_analyze_with_vader`, lines 139-162. -/
def analyzeWithVader (s : VaderScores) : InnerResult :=
  let sc :=
    if s.compound ≥ 5/100 then ("positive", s.pos)
    else if s.compound ≤ -(5/100) then ("negative", s.neg)
    else ("neutral", s.neu)
  { sentiment := sc.1, confidence := sc.2,
    scores := [("positive", s.pos), ("negative", s.neg), ("neutral", s.neu)] }

/-- `_analyze_with_textblob`, lines 164-200, as a function of the TextBlob
polarity.  The single `if total > 0` guard of the Python source is applied
to each of the three scores (the condition is evaluated on the same
`total` each time, so this is the same branch). -/
def analyzeWithTextblob (polarity : ℚ) : InnerResult :=
  let sc :=
    if polarity > 1/10 then ("positive", min 1 polarity)
    else if polarity < -(1/10) then ("negative", min 1 |polarity|)
    else ("neutral", 1 - |polarity|)
  let pos_score := max 0 polarity
  let neg_score := max 0 (-polarity)
  let neu_score := 1 - |polarity|
  let total := pos_score + neg_score + neu_score
  let pos_n := if total > 0 then pos_score / total else pos_score
  let neg_n := if total > 0 then neg_score / total else neg_score
  let neu_n := if total > 0 then neu_score / total else neu_score
  { sentiment := sc.1, confidence := sc.2,
    scores := [("positive", pos_n), ("negative", neg_n), ("neutral", neu_n)] }

/-! ## analyze_sentiment -/

/-- The three underlying engines, as oracles that may raise.  `transformer`
is the HF pipeline call (native label and raw score), `vader` is
`polarity_scores`, `textblob` is `TextBlob(text).sentiment.polarity`. -/
structure Engines where
  transformer : String → Except String (String × ℚ)
  vader : String → Except String VaderScores
  textblob : String → Except String ℚ

/-- The `try` body of `analyze_sentiment` (lines 79-86): dispatch on
`self.method`; an unknown method raises `ValueError`. -/
def dispatchMethod (eng : Engines) (method : String) (text : String) : Except String InnerResult :=
  if method = "transformers" then
    match eng.transformer text with
    | Except.error e => Except.error e
    | Except.ok (label, score) => Except.ok (analyzeWithTransformers label score)
  else if method = "vader" then
    match eng.vader text with
    | Except.error e => Except.error e
    | Except.ok s => Except.ok (analyzeWithVader s)
  else if method = "textblob" then
    match eng.textblob text with
    | Except.error e => Except.error e
    | Except.ok p => Except.ok (analyzeWithTextblob p)
  else Except.error ("Unknown sentiment analysis method: " ++ method)

/-- The dictionary returned by `analyze_sentiment`: the `error` key is
present only on the exception path. -/
structure SentimentOutput where
  sentiment : String
  confidence : ℚ
  scores : List (String × ℚ)
  processing_time : ℚ
  error : Option String
  deriving DecidableEq, Repr

/-- The fixed result for empty / whitespace-only input (lines 64-74). -/
def fixedNeutralOutput : SentimentOutput :=
  { sentiment := "neutral", confidence := 0,
    scores := [("positive", 0), ("negative", 0), ("neutral", 1)],
    processing_time := 0, error := none }

/-- `analyze_sentiment` (lines 54-104).  `elapsed` abstracts the wall-clock
delta `time.time() - start_time` observed at whichever return statement
fires.  The outer `except Exception` turns every dispatch failure into a
normal return, so the function is `Except.ok` on every path. -/
def analyze_sentiment (eng : Engines) (method : String) (elapsed : ℚ) (text : String) :
    Except String SentimentOutput :=
  if text.isEmpty || (pyStrip text).isEmpty then
    Except.ok fixedNeutralOutput
  else
    match dispatchMethod eng method text with
    | Except.ok r =>
        Except.ok { sentiment := r.sentiment, confidence := r.confidence,
                    scores := r.scores, processing_time := elapsed, error := none }
    | Except.error e =>
        Except.ok { sentiment := "neutral", confidence := 0,
                    scores := [("positive", 0), ("negative", 0), ("neutral", 1)],
                    processing_time := elapsed, error := some e }

/-- Concrete engine assignment whose every call succeeds; used in witnesses. -/
def engConst : Engines :=
  { transformer := fun _ => Except.ok ("POSITIVE", 9/10)
    vader := fun _ => Except.ok ⟨1/2, 0, 1/2, 6/10⟩
    textblob := fun _ => Except.ok (1/2) }

/-- Concrete engine assignment whose every call raises; used in witnesses
and counterexamples. -/
def engFail : Engines :=
  { transformer := fun _ => Except.error "boom"
    vader := fun _ => Except.error "boom"
    textblob := fun _ => Except.error "boom" }

/-! ## C1 -/

/-- C1: for empty or whitespace-only text, `analyze_sentiment` returns the
fixed neutral result (label neutral, confidence 0, scores
{positive 0, negative 0, neutral 1}, processing_time 0) for every engine
assignment and every configured method — the right-hand side mentions
neither the engines nor the clock, so no engine is consulted. -/
theorem analyze_sentiment_blank_neutral (text : String)
    (h : text.toList.all pyIsSpace = true) :
    ∀ (eng : Engines) (method : String) (elapsed : ℚ),
      analyze_sentiment eng method elapsed text = Except.ok fixedNeutralOutput := by
  intro eng method elapsed
  have hdrop : text.toList.dropWhile pyIsSpace = [] := by
    rw [List.dropWhile_eq_nil_iff]
    intro x hx
    exact List.all_eq_true.mp h x hx
  have hstrip : pyStrip text = String.mk [] := by
    unfold pyStrip
    rw [hdrop]
    rfl
  have hblank : (text.isEmpty || (pyStrip text).isEmpty) = true := by
    rw [hstrip]
    simp [String.isEmpty]
  unfold analyze_sentiment
  rw [hblank]
  rfl

/-- Witness for C1 at the concrete whitespace-only input consisting of a
space, a form feed and a tab. -/
theorem analyze_sentiment_blank_neutral_witness :
    analyze_sentiment engConst "transformers" 7 " \x0c\t" = Except.ok fixedNeutralOutput :=
  analyze_sentiment_blank_neutral " \x0c\t" (by decide) engConst "transformers" 7

/-! ## C2 -/

/-- Reduction of the transformer score dict when the mapped label is
`"positive"`. -/
theorem transformers_scores_pos (label : String) (c : ℚ)
    (hs : labelMapGet label = "positive") :
    (analyzeWithTransformers label c).scores =
      [("positive", c), ("negative", (1 - c) / 2), ("neutral", (1 - c) / 2)] := by
  unfold analyzeWithTransformers
  rw [hs]
  simp [dinsert, List.filter_cons, List.foldl_cons]

/-- Reduction of the transformer score dict when the mapped label is
`"negative"`. -/
theorem transformers_scores_neg (label : String) (c : ℚ)
    (hs : labelMapGet label = "negative") :
    (analyzeWithTransformers label c).scores =
      [("positive", (1 - c) / 2), ("negative", c), ("neutral", (1 - c) / 2)] := by
  unfold analyzeWithTransformers
  rw [hs]
  simp [dinsert, List.filter_cons, List.foldl_cons]

/-- Reduction of the transformer score dict when the mapped label is
`"neutral"`. -/
theorem transformers_scores_neu (label : String) (c : ℚ)
    (hs : labelMapGet label = "neutral") :
    (analyzeWithTransformers label c).scores =
      [("positive", (1 - c) / 2), ("negative", (1 - c) / 2), ("neutral", c)] := by
  unfold analyzeWithTransformers
  rw [hs]
  simp [dinsert, List.filter_cons, List.foldl_cons]

/-- C2: in the transformer mapping, for every native label whose mapped
sentiment lies in {positive, negative, neutral} and every raw confidence
`c ∈ [0,1]`, the chosen label's score is exactly `c`, each non-chosen
label's score is exactly `(1-c)/2`, and the three scores sum to 1
(exactly, hence within floating tolerance). -/
theorem transformers_scores_spec (label : String) (c : ℚ)
    (hc0 : 0 ≤ c) (hc1 : c ≤ 1)
    (hs : labelMapGet label = "positive" ∨ labelMapGet label = "negative" ∨
          labelMapGet label = "neutral") :
    lookupD (analyzeWithTransformers label c).scores (labelMapGet label) = c ∧
    (∀ t ∈ (["positive", "negative", "neutral"] : List String),
        t ≠ labelMapGet label →
        lookupD (analyzeWithTransformers label c).scores t = (1 - c) / 2) ∧
    lookupD (analyzeWithTransformers label c).scores "positive" +
      lookupD (analyzeWithTransformers label c).scores "negative" +
      lookupD (analyzeWithTransformers label c).scores "neutral" = 1 := by
  rcases hs with hs | hs | hs
  · rw [transformers_scores_pos label c hs, hs]
    refine ⟨by simp [lookupD], ?_, by simp [lookupD]; try ring⟩
    intro t ht hne
    fin_cases ht <;> simp_all [lookupD]
  · rw [transformers_scores_neg label c hs, hs]
    refine ⟨by simp [lookupD], ?_, by simp [lookupD]; try ring⟩
    intro t ht hne
    fin_cases ht <;> simp_all [lookupD]
  · rw [transformers_scores_neu label c hs, hs]
    refine ⟨by simp [lookupD], ?_, by simp [lookupD]; try ring⟩
    intro t ht hne
    fin_cases ht <;> simp_all [lookupD]

/-- Witness for C2 at the native label `"LABEL_2"` (mapped to positive)
and confidence `3/4`. -/
theorem transformers_scores_spec_witness :
    lookupD (analyzeWithTransformers "LABEL_2" (3/4)).scores (labelMapGet "LABEL_2") = 3/4 :=
  (transformers_scores_spec "LABEL_2" (3/4) (by norm_num) (by norm_num)
    (Or.inl (by decide))).1

/-! ## C3 -/

/-- C3 counterexample: the native label `"LABEL_3"` is not in the lookup
table, so `_analyze_with_transformers` falls back to `.lower()` and
returns the sentiment `"label_3"`, which is not one of
{positive, negative, neutral}. -/
theorem transformers_unknown_label_cx :
    (analyzeWithTransformers "LABEL_3" (9/10)).sentiment = "label_3" ∧
    (analyzeWithTransformers "LABEL_3" (9/10)).sentiment ∉
      (["positive", "negative", "neutral"] : List String) := by
  constructor
  · rfl
  · decide

/-- C3 amended: native labels are remapped through the fixed lookup table
{LABEL_0, LABEL_1, LABEL_2, NEGATIVE, NEUTRAL, POSITIVE}; a label outside
the table is passed through lowercased, so the returned sentiment is
guaranteed to lie in {positive, negative, neutral} when the native label
is in the table or already lowercases to one of the three labels. -/
theorem transformers_label_normalization (label : String) (c : ℚ)
    (h : label ∈ (["LABEL_0", "LABEL_1", "LABEL_2",
                   "NEGATIVE", "NEUTRAL", "POSITIVE"] : List String) ∨
         pyLower label ∈ (["positive", "negative", "neutral"] : List String)) :
    (analyzeWithTransformers label c).sentiment ∈
      (["positive", "negative", "neutral"] : List String) := by
  have hsent : (analyzeWithTransformers label c).sentiment = labelMapGet label := rfl
  rw [hsent]
  rcases h with h | h
  · fin_cases h <;> decide
  · unfold labelMapGet
    split_ifs <;> first | decide | exact h

/-- Witness for C3's amended claim at the table label `"LABEL_0"`. -/
theorem transformers_label_normalization_witness :
    (analyzeWithTransformers "LABEL_0" (1/2)).sentiment ∈
      (["positive", "negative", "neutral"] : List String) :=
  transformers_label_normalization "LABEL_0" (1/2) (Or.inl (by decide))

/-! ## C4 -/

/-- C4: the VADER mapping applies the inclusive threshold rule —
`compound ≥ 0.05` gives positive with confidence equal to the positive
sub-score, `compound ≤ -0.05` gives negative with confidence equal to the
negative sub-score, anything strictly between gives neutral with
confidence equal to the neutral sub-score — and the returned scores are
the engine's three sub-scores verbatim. -/
theorem vader_threshold_spec (s : VaderScores) :
    (s.compound ≥ 5/100 →
      (analyzeWithVader s).sentiment = "positive" ∧
      (analyzeWithVader s).confidence = s.pos) ∧
    (s.compound ≤ -(5/100) →
      (analyzeWithVader s).sentiment = "negative" ∧
      (analyzeWithVader s).confidence = s.neg) ∧
    (-(5/100) < s.compound → s.compound < 5/100 →
      (analyzeWithVader s).sentiment = "neutral" ∧
      (analyzeWithVader s).confidence = s.neu) ∧
    (analyzeWithVader s).scores =
      [("positive", s.pos), ("negative", s.neg), ("neutral", s.neu)] := by
  unfold analyzeWithVader
  refine ⟨?_, ?_, ?_, rfl⟩
  · intro h
    rw [if_pos h]
    exact ⟨rfl, rfl⟩
  · intro h
    have h' : ¬ (s.compound ≥ 5/100) := by linarith
    rw [if_neg h', if_pos h]
    exact ⟨rfl, rfl⟩
  · intro h1 h2
    have h' : ¬ (s.compound ≥ 5/100) := by linarith
    have h'' : ¬ (s.compound ≤ -(5/100)) := by linarith
    rw [if_neg h', if_neg h'']
    exact ⟨rfl, rfl⟩

/-- Witness for C4 at the tuple of the spec's end-to-end scenario
(pos 0.7, neg 0, neu 0.3, compound 0.6). -/
theorem vader_threshold_spec_witness :
    (analyzeWithVader ⟨7/10, 0, 3/10, 6/10⟩).sentiment = "positive" ∧
    (analyzeWithVader ⟨7/10, 0, 3/10, 6/10⟩).confidence = 7/10 :=
  (vader_threshold_spec ⟨7/10, 0, 3/10, 6/10⟩).1 (by norm_num)

/-! ## C5 -/

/-- The unnormalized TextBlob score mass is identically 1, so the
`total > 0` guard always takes the normalizing branch and no division by
zero can occur. -/
theorem textblob_total_eq_one (p : ℚ) :
    max 0 p + max 0 (-p) + (1 - |p|) = 1 := by
  rcases le_total 0 p with h | h
  · rw [max_eq_right h, max_eq_left (neg_nonpos.mpr h), abs_of_nonneg h]
    ring
  · rw [max_eq_left h, max_eq_right (neg_nonneg.mpr h), abs_of_nonpos h]
    ring

/-- C5: the TextBlob mapping uses exclusive thresholds
(`polarity > 0.1` positive, `polarity < -0.1` negative, otherwise
neutral), confidence `min(1,|p|)` for positive/negative and `1-|p|` for
neutral; the unnormalized score mass is strictly positive (so the
normalizing branch is always taken and no division by zero occurs), and
the normalized scores sum to exactly 1. -/
theorem textblob_mapping_spec (p : ℚ) (hl : -1 ≤ p) (hr : p ≤ 1) :
    (p > 1/10 →
      (analyzeWithTextblob p).sentiment = "positive" ∧
      (analyzeWithTextblob p).confidence = min 1 |p|) ∧
    (p < -(1/10) →
      (analyzeWithTextblob p).sentiment = "negative" ∧
      (analyzeWithTextblob p).confidence = min 1 |p|) ∧
    (-(1/10) ≤ p → p ≤ 1/10 →
      (analyzeWithTextblob p).sentiment = "neutral" ∧
      (analyzeWithTextblob p).confidence = 1 - |p|) ∧
    0 < max 0 p + max 0 (-p) + (1 - |p|) ∧
    lookupD (analyzeWithTextblob p).scores "positive" +
      lookupD (analyzeWithTextblob p).scores "negative" +
      lookupD (analyzeWithTextblob p).scores "neutral" = 1 := by
  have htot := textblob_total_eq_one p
  refine ⟨?_, ?_, ?_, by rw [htot]; norm_num, ?_⟩
  · intro h
    have habs : |p| = p := abs_of_pos (by linarith)
    unfold analyzeWithTextblob
    rw [if_pos h, habs]
    exact ⟨rfl, rfl⟩
  · intro h
    have h' : ¬ (p > 1/10) := by linarith
    unfold analyzeWithTextblob
    rw [if_neg h', if_pos h]
    exact ⟨rfl, rfl⟩
  · intro h1 h2
    have h' : ¬ (p > 1/10) := by linarith
    have h'' : ¬ (p < -(1/10)) := by linarith
    unfold analyzeWithTextblob
    rw [if_neg h', if_neg h'']
    exact ⟨rfl, rfl⟩
  · simp only [analyzeWithTextblob]
    rw [htot]
    simp [lookupD]
    linarith [htot]

/-- Witness for C5 at polarity `1/2`. -/
theorem textblob_mapping_spec_witness :
    (analyzeWithTextblob (1/2)).sentiment = "positive" ∧
    (analyzeWithTextblob (1/2)).confidence = min 1 |(1/2 : ℚ)| :=
  (textblob_mapping_spec (1/2) (by norm_num) (by norm_num)).1 (by norm_num)

/-! ## speech_to_text.py: _calculate_confidence -/

/-- One Whisper segment, keeping only the `avg_logprob` key (absent when
the engine does not expose it). -/
structure Segment where
  avg_logprob : Option ℚ
  deriving DecidableEq, Repr

/-- `_calculate_confidence` (speech_to_text.py lines 66-88): 0.5 with no
segments; otherwise the mean of `min(1.0, max(0.0, avg_logprob + 1.0))`
over the segments carrying `avg_logprob`, or 0.5 if none does. -/
def calculate_confidence (segments : List Segment) : ℚ :=
  if segments.isEmpty then 1/2
  else
    let confidences :=
      segments.filterMap (fun seg => seg.avg_logprob.map (fun lp => min 1 (max 0 (lp + 1))))
    if confidences.isEmpty then 1/2
    else confidences.sum / (confidences.length : ℚ)

/-- The spec-side clamp `clamp(x, lo, hi)`. -/
def specClamp (x lo hi : ℚ) : ℚ := max lo (min x hi)

/-- The code's `min(1, max(0, x))` is the spec's `clamp(x, 0, 1)`. -/
theorem min_max_eq_specClamp (x : ℚ) : min 1 (max 0 x) = specClamp x 0 1 := by
  unfold specClamp
  rw [min_def, max_def, min_def, max_def]
  split_ifs <;> linarith

/-- The per-segment confidence collection, rewritten as a map over the
exposed log-probabilities. -/
theorem confidences_as_map (l : List Segment) :
    l.filterMap (fun seg => seg.avg_logprob.map (fun lp => min 1 (max 0 (lp + 1)))) =
      (l.filterMap Segment.avg_logprob).map (fun lp => specClamp (lp + 1) 0 1) := by
  simp only [min_max_eq_specClamp]
  rw [List.map_filterMap]

/-! ## C6 -/

/-- C6: the transcription confidence equals the arithmetic mean of
`clamp(log_prob + 1, 0, 1)` over the segments exposing a log-probability,
and is exactly 0.5 when no segment-level data is available (no segments
at all, or no segment carrying a log-probability). -/
theorem calculate_confidence_spec (segments : List Segment) :
    calculate_confidence segments =
      (let cs := (segments.filterMap Segment.avg_logprob).map (fun lp => specClamp (lp + 1) 0 1)
       if cs.isEmpty then 1/2 else cs.sum / (cs.length : ℚ)) := by
  unfold calculate_confidence
  rw [confidences_as_map]
  cases segments with
  | nil => simp
  | cons s t => simp

/-! ## C7 -/

/-- C7 counterexample: with engines that always raise, the active method
`"vader"` cannot process the non-empty input `"hello"` (the dispatch
raises), yet `analyze_sentiment` does not fail — it returns a normal
neutral result carrying the cause in its `error` field.  This refutes
"fails with a SentimentError exactly when the active method cannot
process the input". -/
theorem analyze_sentiment_failure_cx :
    analyze_sentiment engFail "vader" 1 "hello" =
      Except.ok { sentiment := "neutral", confidence := 0,
                  scores := [("positive", 0), ("negative", 0), ("neutral", 1)],
                  processing_time := 1, error := some "boom" } ∧
    dispatchMethod engFail "vader" "hello" = Except.error "boom" := by
  constructor
  · rfl
  · rfl

/-- Every branch of `analyze_sentiment` ends in a normal return. -/
theorem analyze_sentiment_ok_exists (eng : Engines) (method : String)
    (elapsed : ℚ) (text : String) :
    ∃ r, analyze_sentiment eng method elapsed text = Except.ok r := by
  unfold analyze_sentiment
  split
  · exact ⟨_, rfl⟩
  · cases h : dispatchMethod eng method text
    · exact ⟨_, rfl⟩
    · exact ⟨_, rfl⟩

/-- C7 amended: `analyze_sentiment` never fails for any engines, method,
clock and text — even when the active method cannot process the input,
the exception is caught and a normal neutral result (with an `error`
field) is returned instead of a propagated SentimentError. -/
theorem analyze_sentiment_never_fails (eng : Engines) (method : String)
    (elapsed : ℚ) (text : String) :
    ∃ r, analyze_sentiment eng method elapsed text = Except.ok r :=
  analyze_sentiment_ok_exists eng method elapsed text

/-! ## C8 -/

/-- The transcription-stage dictionary as consumed by the orchestrators:
`transcribe_audio` always sets `text`, `confidence` and
`processing_time` (the latter is the wall-clock delta around the Whisper
call, recorded inside the service). -/
structure TranscriptionOutput where
  text : String
  language : String
  confidence : ℚ
  processing_time : ℚ
  deriving DecidableEq, Repr

/-- The `AudioProcessResponse` fields relevant here (models/schemas.py). -/
structure AudioProcessResponse where
  transcript : String
  transcript_confidence : ℚ
  sentiment : String
  sentiment_confidence : ℚ
  sentiment_scores : List (String × ℚ)
  processing_time : ℚ
  deriving DecidableEq, Repr

/-- `process_audio_complete` from main.py (lines 111-130), as a function
of the two stage results: `processing_time` is
`transcript_result["processing_time"] + sentiment_result["processing_time"]`. -/
def process_audio_complete_main (tr : TranscriptionOutput) (sr : SentimentOutput) :
    AudioProcessResponse :=
  { transcript := tr.text
    transcript_confidence := tr.confidence
    sentiment := sr.sentiment
    sentiment_confidence := sr.confidence
    sentiment_scores := sr.scores
    processing_time := tr.processing_time + sr.processing_time }

/-- `process_audio_complete` from lambda_handler.py (lines 184-283), as a
function of the stage results and of the handler's wall-clock bracket:
`processing_time` is `total_processing_time = time.time() - start_time`,
the span of the whole handler (file read, temp-file write, metrics
emission and both stages), not the sum of the stage timings. -/
def process_audio_complete_lambda (startTime : ℚ) (tr : TranscriptionOutput)
    (sr : SentimentOutput) (endTime : ℚ) : AudioProcessResponse :=
  { transcript := tr.text
    transcript_confidence := tr.confidence
    sentiment := sr.sentiment
    sentiment_confidence := sr.confidence
    sentiment_scores := sr.scores
    processing_time := endTime - startTime }

/-- Concrete transcription stage result used in the C8 counterexample. -/
def trEx : TranscriptionOutput := ⟨"hi", "en", 9/10, 1⟩

/-- Concrete sentiment stage result used in the C8 counterexample. -/
def srEx : SentimentOutput :=
  ⟨"positive", 7/10, [("positive", 7/10), ("negative", 0), ("neutral", 3/10)], 1, none⟩

/-- C8 counterexample: a lambda_handler request whose handler spans 3
seconds of wall-clock around stage timings of 1 second each reports
`processing_time = 3`, not the stage sum 2 — so the claim fails for the
lambda_handler variant of `process_audio_complete`. -/
theorem lambda_processing_time_cx :
    (process_audio_complete_lambda 0 trEx srEx 3).processing_time ≠
      trEx.processing_time + srEx.processing_time := by
  norm_num [process_audio_complete_lambda, trEx, srEx]

/-- C8 amended: in main.py the combined result's `processing_time` is
exactly the sum of the transcription stage's and the sentiment stage's
recorded `processing_time`s; in lambda_handler.py it is instead the
wall-clock span of the whole handler (`end - start`), which need not
equal that sum. -/
theorem processing_time_reporting (tr : TranscriptionOutput) (sr : SentimentOutput)
    (startTime endTime : ℚ) :
    (process_audio_complete_main tr sr).processing_time =
      tr.processing_time + sr.processing_time ∧
    (process_audio_complete_lambda startTime tr sr endTime).processing_time =
      endTime - startTime :=
  ⟨rfl, rfl⟩

/-! ## C9: _load_analyzer and the construction-time fallback -/

/-- The possible values of `self.analyzer`: the HF pipeline object, a
`SentimentIntensityAnalyzer()` instance, or the `"textblob"` tag string. -/
inductive AnalyzerHandle
  | transformerPipeline
  | vaderAnalyzer
  | textblobTag
  deriving DecidableEq, Repr

/-- `(self.method, self.analyzer)` of a `SentimentAnalysisService`. -/
structure ServiceState where
  method : String
  analyzer : Option AnalyzerHandle
  deriving DecidableEq, Repr

/-- Whether `pipeline(...)` succeeds in this process.  Constructing a
`SentimentIntensityAnalyzer()` is a plain Python object construction and
is modelled as always succeeding. -/
structure LoadEnv where
  transformerLoadOk : Bool
  deriving DecidableEq, Repr

/-- `_load_analyzer` (lines 20-52): load the analyzer for `self.method`;
on a transformer load failure the `except` clause silently switches the
service to VADER.  A failure with any other configured method leaves
`self.analyzer` as it was (only the `transformers` case is handled). -/
def load_analyzer (env : LoadEnv) (st : ServiceState) : ServiceState :=
  if st.method = "transformers" then
    if env.transformerLoadOk then { st with analyzer := some AnalyzerHandle.transformerPipeline }
    else { method := "vader", analyzer := some AnalyzerHandle.vaderAnalyzer }
  else if st.method = "vader" then { st with analyzer := some AnalyzerHandle.vaderAnalyzer }
  else if st.method = "textblob" then { st with analyzer := some AnalyzerHandle.textblobTag }
  else st

/-- `SentimentAnalysisService.__init__` (lines 9-18): set the method,
start with `analyzer = None`, call `_load_analyzer` once. -/
def initSentimentService (env : LoadEnv) (method : String) : ServiceState :=
  load_analyzer env { method := method, analyzer := none }

/-- Number of attempts to load the transformer model made by one
`_load_analyzer` call entered in state `st` (1 exactly when the branch
`self.method == "transformers"` is taken). -/
def transformerLoadAttempts (st : ServiceState) : ℕ :=
  if st.method = "transformers" then 1 else 0

/-- A sequence of `analyze_sentiment` calls against a fixed service.
`analyze_sentiment` reads `self.method` but never writes the service
state and never calls `_load_analyzer`, so each call leaves the state
unchanged, contributes 0 further transformer-load attempts, and yields
its output. -/
def runAnalyzeCalls (eng : Engines) (st : ServiceState) :
    List (ℚ × String) → ServiceState × ℕ × List (Except String SentimentOutput)
  | [] => (st, 0, [])
  | (elapsed, text) :: rest =>
      let out := analyze_sentiment eng st.method elapsed text
      let r := runAnalyzeCalls eng st rest
      (r.1, r.2.1, out :: r.2.2)

/-- The trailing components of `runAnalyzeCalls` never change the state
and never add load attempts. -/
theorem runAnalyzeCalls_state (eng : Engines) (st : ServiceState)
    (calls : List (ℚ × String)) :
    (runAnalyzeCalls eng st calls).1 = st ∧ (runAnalyzeCalls eng st calls).2.1 = 0 := by
  induction calls with
  | nil => exact ⟨rfl, rfl⟩
  | cons c rest ih => simpa [runAnalyzeCalls] using ih

/-- C9: when the transformer backend fails to load at construction time,
the constructor still returns normally with the service switched to the
VADER method and a VADER analyzer instance; every subsequent
`analyze_sentiment` call dispatches through the VADER method; and over
the whole service lifetime (construction plus any number of analyze
calls) exactly one transformer load is attempted — the substituted state
is kept, so the fallback is not retried. -/
theorem transformer_fallback_substitution (env : LoadEnv)
    (h : env.transformerLoadOk = false) :
    (initSentimentService env "transformers").method = "vader" ∧
    (initSentimentService env "transformers").analyzer = some AnalyzerHandle.vaderAnalyzer ∧
    (∀ eng elapsed text,
        analyze_sentiment eng (initSentimentService env "transformers").method elapsed text =
          analyze_sentiment eng "vader" elapsed text) ∧
    (∀ eng calls,
        (runAnalyzeCalls eng (initSentimentService env "transformers") calls).1 =
          initSentimentService env "transformers" ∧
        transformerLoadAttempts { method := "transformers", analyzer := none } +
          (runAnalyzeCalls eng (initSentimentService env "transformers") calls).2.1 = 1) := by
  have hinit : initSentimentService env "transformers" =
      { method := "vader", analyzer := some AnalyzerHandle.vaderAnalyzer } := by
    unfold initSentimentService load_analyzer
    rw [h]
    simp
  refine ⟨by rw [hinit], by rw [hinit], ?_, ?_⟩
  · intro eng elapsed text
    rw [hinit]
  · intro eng calls
    obtain ⟨h1, h2⟩ := runAnalyzeCalls_state eng (initSentimentService env "transformers") calls
    exact ⟨h1, by rw [h2]; rfl⟩

/-- Witness for C9 at the concrete environment where the transformer
load fails. -/
theorem transformer_fallback_substitution_witness :
    (initSentimentService ⟨false⟩ "transformers").method = "vader" :=
  (transformer_fallback_substitution ⟨false⟩ rfl).1

/-! ## C10 -/

/-- C10: `analyze_sentiment` never raises — every call returns a normal
result — and whenever the configured method's analysis of a non-blank
text raises internally (the dispatch errors with cause `e`), the
returned result is label neutral, confidence 0, scores
{positive 0, negative 0, neutral 1}, the elapsed processing time, and
the `error` field set to the cause. -/
theorem analyze_sentiment_error_recovery :
    (∀ (eng : Engines) (method : String) (elapsed : ℚ) (text : String),
        (analyze_sentiment eng method elapsed text).isOk = true) ∧
    (∀ (eng : Engines) (method : String) (elapsed : ℚ) (text : String) (e : String),
        (text.isEmpty || (pyStrip text).isEmpty) = false →
        dispatchMethod eng method text = Except.error e →
        analyze_sentiment eng method elapsed text =
          Except.ok { sentiment := "neutral", confidence := 0,
                      scores := [("positive", 0), ("negative", 0), ("neutral", 1)],
                      processing_time := elapsed, error := some e }) := by
  constructor
  · intro eng method elapsed text
    obtain ⟨r, hr⟩ := analyze_sentiment_ok_exists eng method elapsed text
    rw [hr]
    rfl
  · intro eng method elapsed text e hblank hdisp
    unfold analyze_sentiment
    rw [hblank]
    simp [hdisp]

/-- Witness for C10 at the always-raising engines and the non-blank text
`"hi"` under the `"textblob"` method. -/
theorem analyze_sentiment_error_recovery_witness :
    analyze_sentiment engFail "textblob" 2 "hi" =
      Except.ok { sentiment := "neutral", confidence := 0,
                  scores := [("positive", 0), ("negative", 0), ("neutral", 1)],
                  processing_time := 2, error := some "boom" } :=
  analyze_sentiment_error_recovery.2 engFail "textblob" 2 "hi" "boom" rfl rfl

end Texty
